import Mathlib

/-!
Verification of the Caprecon NGO backend (FastAPI + MongoDB document store).

The embedding models:
* documents as association lists of string keys to JSON-like values
  (`Doc`), the shape in which MongoDB hands records to the handlers;
* the document-store adapter (`get_documents`, `create_document`) — its
  module `database.py` is not part of the source tree, so it is modelled
  from the specification's description of the store adapter;
* the three public list endpoints of `main.py` (`list_programs`,
  `list_stories`, `list_posts`);
* the declarative pydantic schemas of `schemas.py` as Lean structures
  plus explicit validation functions (`parseDonationIntent`, ...) that
  realise the declared field requirements, defaults, numeric bounds and
  literal enumerations;
* the four intake `create_*` endpoints of `main.py`, with the store
  insert outcome supplied as an oracle so that "the insert is not
  retried" is expressible;
* the `/test` diagnostic endpoint `test_database`.
-/

/-- JSON-like field values as they occur in the schemas of this backend:
strings, numbers (amounts), booleans, lists of strings, and null. -/
inductive Value where
  | str (s : String)
  | num (q : Rat)
  | bool (b : Bool)
  | strList (l : List String)
  | null
deriving DecidableEq, Repr

/-- A document / request body: an association list from field names to
values, the shape pymongo and FastAPI hand to the handlers. -/
abbrev Doc := List (String × Value)

/-- Look a field up in a document (Python `d.get(k)` / key access). -/
def getField (d : Doc) (k : String) : Option Value :=
  match d with
  | [] => none
  | kv :: rest => if kv.1 = k then some kv.2 else getField rest k

/-- `d.pop("_id", None)`: the document without its store-native id key. -/
def removeId (d : Doc) : Doc :=
  d.filter (fun kv => kv.1 ≠ "_id")

/-- Mongo-style equality filter: the document matches when every key of
the filter is present with exactly the given value. -/
def matchesFilter (fq : Doc) (d : Doc) : Bool :=
  fq.all (fun kv => decide (getField d kv.1 = some kv.2))

/-- Modelled from the spec: `database.py` is absent from the source tree;
its `get_documents(collection_name, filter, limit)` is described as
"returns up to `limit` matching records (insertion-order or store-default
order; no explicit sort is specified), each including its assigned
identifier". The collection is the list of stored documents in
insertion order. -/
def get_documents (docs : List Doc) (fq : Doc) (lim : Nat) : List Doc :=
  (docs.filter (matchesFilter fq)).take lim

/-- Modelled from the spec: `database.py` is absent from the source tree;
its `create_document(collection_name, record)` "serializes the record to
a plain key-value structure, inserts into the named collection, returns
the newly assigned identifier as a string". `newId` is the identifier the
store assigns. -/
def create_document (docs : List Doc) (record : Doc) (newId : String) :
    String × List Doc :=
  (newId, docs ++ [record ++ [("_id", Value.str newId)]])

/-- `GET /api/programs` handler (`main.py`): default `limit=20`,
default `published_only=True`; builds `{"status": "published"}` when
`published_only`, queries, pops `_id` from each record. `none` stands
for an omitted query parameter. -/
def list_programs (store : List Doc) (limit : Option Nat)
    (published_only : Option Bool) : List Doc :=
  let fq : Doc :=
    if published_only.getD true then [("status", Value.str "published")] else []
  (get_documents store fq (limit.getD 20)).map removeId

/-- `GET /api/stories` handler (`main.py`): default `limit=12`,
default `published_only=True`. -/
def list_stories (store : List Doc) (limit : Option Nat)
    (published_only : Option Bool) : List Doc :=
  let fq : Doc :=
    if published_only.getD true then [("status", Value.str "published")] else []
  (get_documents store fq (limit.getD 12)).map removeId

/-- `GET /api/posts` handler (`main.py`): default `limit=12`,
default `published_only=True`. -/
def list_posts (store : List Doc) (limit : Option Nat)
    (published_only : Option Bool) : List Doc :=
  let fq : Doc :=
    if published_only.getD true then [("status", Value.str "published")] else []
  (get_documents store fq (limit.getD 12)).map removeId

/-- The filter document used by the list endpoints when
`published_only` holds. -/
def publishedFilter : Doc := [("status", Value.str "published")]

/-- A stored document counts as published exactly when it matches the
`{"status": "published"}` filter. -/
def isPublished (d : Doc) : Bool := matchesFilter publishedFilter d

/-! ### Schema layer (`schemas.py`) -/

/-- `DonationIntent.frequency : Literal['one_time','monthly']`. -/
inductive Frequency where
  | one_time
  | monthly
deriving DecidableEq, Repr

/-- `VolunteerApplication.status :
Literal['received','screening','accepted','declined']`. -/
inductive VolStatus where
  | received
  | screening
  | accepted
  | declined
deriving DecidableEq, Repr

/-- `PartnerInquiry.status :
Literal['received','in_discussion','mou_draft','closed']`. -/
inductive PartnerStatus where
  | received
  | in_discussion
  | mou_draft
  | closed
deriving DecidableEq, Repr

/-- `Literal['draft','published']` used by the content schemas. -/
inductive PubStatus where
  | draft
  | published
deriving DecidableEq, Repr

/-- `schemas.Program`: `title` and `summary` required, the rest optional
with `None` or empty-list defaults, `status` defaulting to published. -/
structure Program where
  title : String
  summary : String
  problem_context : Option String
  approach : Option String
  activities : Option (List String)
  beneficiaries : Option (List String)
  expected_impact : Option String
  locations : Option (List String)
  tags : Option (List String)
  status : Option PubStatus
deriving DecidableEq, Repr

/-- `schemas.DonationIntent`: `amount` constrained to be strictly
positive, `currency` defaulting to `"USD"`, `frequency` an enumeration
defaulting to one-time, `consent` a required boolean with no default. -/
structure DonationIntent where
  amount : Rat
  currency : String
  frequency : Frequency
  fund : Option String
  first_name : String
  last_name : String
  email : String
  country : Option String
  message : Option String
  consent : Bool
deriving DecidableEq, Repr

/-- `schemas.VolunteerApplication`: `name`, `email`, `consent` required;
`status` an enumeration defaulting to received. -/
structure VolunteerApplication where
  name : String
  email : String
  phone : Option String
  location : Option String
  role_interest : Option String
  availability : Option String
  experience : Option String
  references : Option String
  consent : Bool
  status : Option VolStatus
deriving DecidableEq, Repr

/-- `schemas.PartnerInquiry`: `organization`, `contact_name`, `email`,
`compliance_ack` required; `status` an enumeration defaulting to
received. -/
structure PartnerInquiry where
  organization : String
  partner_type : Option String
  contact_name : String
  email : String
  phone : Option String
  country : Option String
  collaboration_areas : Option String
  message : Option String
  compliance_ack : Bool
  status : Option PartnerStatus
deriving DecidableEq, Repr

/-- `schemas.ContactMessage`: `name`, `email`, `message`, `consent`
required; `topic` optional. -/
structure ContactMessage where
  topic : Option String
  name : String
  email : String
  message : String
  consent : Bool
deriving DecidableEq, Repr

/-- Split a character list at its unique at-sign: `some (local, domain)`
when exactly one at-sign occurs, `none` otherwise. -/
def splitAtSign : List Char → Option (List Char × List Char)
  | [] => none
  | c :: rest =>
      if c = '@' then
        if rest.contains '@' then none else some ([], rest)
      else
        match splitAtSign rest with
        | some (l, d) => some (c :: l, d)
        | none => none

/-- Modelled from the spec: "Email fields must be syntactically valid
addresses" — the check pydantic's `EmailStr` delegates to the
email-validator library (not part of this repository): exactly one
at-sign, a nonempty local part, and a domain that contains a dot and
does not start or end with one. -/
def isValidEmail (s : String) : Bool :=
  match splitAtSign s.toList with
  | some (l, d) =>
      !l.isEmpty && !d.isEmpty && d.contains '.' &&
        d.head? != some '.' && d.getLast? != some '.'
  | none => false

/-! ### Field validation helpers (pydantic semantics for one field) -/

/-- Required string field: present with a string value, else a
validation error. -/
def reqStr (raw : Doc) (k : String) : Except String String :=
  match getField raw k with
  | some (Value.str s) => Except.ok s
  | _ => Except.error (k ++ ": a string is required")

/-- Required boolean field with no default (`consent`,
`compliance_ack`): absent or non-boolean input is a validation error. -/
def reqBool (raw : Doc) (k : String) : Except String Bool :=
  match getField raw k with
  | some (Value.bool b) => Except.ok b
  | _ => Except.error (k ++ ": a boolean is required")

/-- Required strictly positive number (`amount : float = Field(..., gt=0)`). -/
def reqPosNum (raw : Doc) (k : String) : Except String Rat :=
  match getField raw k with
  | some (Value.num q) =>
      if 0 < q then Except.ok q
      else Except.error (k ++ ": must be greater than 0")
  | _ => Except.error (k ++ ": a number is required")

/-- Required email field (`EmailStr`). -/
def reqEmail (raw : Doc) (k : String) : Except String String :=
  match getField raw k with
  | some (Value.str s) =>
      if isValidEmail s then Except.ok s
      else Except.error (k ++ ": value is not a valid email address")
  | _ => Except.error (k ++ ": a string is required")

/-- `Optional[str] = None`: absent or null yields `none`. -/
def optStr (raw : Doc) (k : String) : Except String (Option String) :=
  match getField raw k with
  | none => Except.ok none
  | some Value.null => Except.ok none
  | some (Value.str s) => Except.ok (some s)
  | some _ => Except.error (k ++ ": a string is required")

/-- `str = 'USD'`-style field: a plain string with a default, not
nullable. -/
def strWithDefault (raw : Doc) (k dflt : String) : Except String String :=
  match getField raw k with
  | none => Except.ok dflt
  | some (Value.str s) => Except.ok s
  | some _ => Except.error (k ++ ": a string is required")

/-- `frequency : Literal['one_time','monthly'] = 'one_time'`: absent
yields the default; any value outside the enumeration is rejected. -/
def freqOfValue (v : Value) : Except String Frequency :=
  if v = Value.str "one_time" then Except.ok Frequency.one_time
  else if v = Value.str "monthly" then Except.ok Frequency.monthly
  else Except.error "frequency: value is not a permitted literal"

/-- `frequency` field of a request body: absent yields the default. -/
def parseFrequency (raw : Doc) : Except String Frequency :=
  match getField raw "frequency" with
  | none => Except.ok Frequency.one_time
  | some v => freqOfValue v

/-- `status : Optional[Literal[...]] = 'received'` on
`VolunteerApplication`: absent yields the default, null is allowed,
anything outside the enumeration is rejected. -/
def volStatusOfValue (v : Value) : Except String (Option VolStatus) :=
  if v = Value.null then Except.ok none
  else if v = Value.str "received" then Except.ok (some VolStatus.received)
  else if v = Value.str "screening" then Except.ok (some VolStatus.screening)
  else if v = Value.str "accepted" then Except.ok (some VolStatus.accepted)
  else if v = Value.str "declined" then Except.ok (some VolStatus.declined)
  else Except.error "status: value is not a permitted literal"

/-- Volunteer `status` field: absent yields the default. -/
def parseVolStatus (raw : Doc) : Except String (Option VolStatus) :=
  match getField raw "status" with
  | none => Except.ok (some VolStatus.received)
  | some v => volStatusOfValue v

/-- `status : Optional[Literal[...]] = 'received'` on `PartnerInquiry`. -/
def partnerStatusOfValue (v : Value) : Except String (Option PartnerStatus) :=
  if v = Value.null then Except.ok none
  else if v = Value.str "received" then
    Except.ok (some PartnerStatus.received)
  else if v = Value.str "in_discussion" then
    Except.ok (some PartnerStatus.in_discussion)
  else if v = Value.str "mou_draft" then
    Except.ok (some PartnerStatus.mou_draft)
  else if v = Value.str "closed" then
    Except.ok (some PartnerStatus.closed)
  else Except.error "status: value is not a permitted literal"

/-- Partner `status` field: absent yields the default. -/
def parsePartnerStatus (raw : Doc) : Except String (Option PartnerStatus) :=
  match getField raw "status" with
  | none => Except.ok (some PartnerStatus.received)
  | some v => partnerStatusOfValue v

/-- Validation of a `DonationIntent` request body against
`schemas.DonationIntent`, fields in declaration order. -/
def parseDonationIntent (raw : Doc) : Except String DonationIntent := do
  let amount ← reqPosNum raw "amount"
  let currency ← strWithDefault raw "currency" "USD"
  let frequency ← parseFrequency raw
  let fund ← optStr raw "fund"
  let first_name ← reqStr raw "first_name"
  let last_name ← reqStr raw "last_name"
  let email ← reqEmail raw "email"
  let country ← optStr raw "country"
  let message ← optStr raw "message"
  let consent ← reqBool raw "consent"
  Except.ok ⟨amount, currency, frequency, fund, first_name, last_name,
    email, country, message, consent⟩

/-- Validation of a `VolunteerApplication` request body against
`schemas.VolunteerApplication`. -/
def parseVolunteerApplication (raw : Doc) :
    Except String VolunteerApplication := do
  let name ← reqStr raw "name"
  let email ← reqEmail raw "email"
  let phone ← optStr raw "phone"
  let location ← optStr raw "location"
  let role_interest ← optStr raw "role_interest"
  let availability ← optStr raw "availability"
  let experience ← optStr raw "experience"
  let refs ← optStr raw "references"
  let consent ← reqBool raw "consent"
  let status ← parseVolStatus raw
  Except.ok ⟨name, email, phone, location, role_interest, availability,
    experience, refs, consent, status⟩

/-- Validation of a `PartnerInquiry` request body against
`schemas.PartnerInquiry`. -/
def parsePartnerInquiry (raw : Doc) : Except String PartnerInquiry := do
  let organization ← reqStr raw "organization"
  let partner_type ← optStr raw "partner_type"
  let contact_name ← reqStr raw "contact_name"
  let email ← reqEmail raw "email"
  let phone ← optStr raw "phone"
  let country ← optStr raw "country"
  let collaboration_areas ← optStr raw "collaboration_areas"
  let message ← optStr raw "message"
  let compliance_ack ← reqBool raw "compliance_ack"
  let status ← parsePartnerStatus raw
  Except.ok ⟨organization, partner_type, contact_name, email, phone,
    country, collaboration_areas, message, compliance_ack, status⟩

/-- Validation of a `ContactMessage` request body against
`schemas.ContactMessage`. -/
def parseContactMessage (raw : Doc) : Except String ContactMessage := do
  let topic ← optStr raw "topic"
  let name ← reqStr raw "name"
  let email ← reqEmail raw "email"
  let message ← reqStr raw "message"
  let consent ← reqBool raw "consent"
  Except.ok ⟨topic, name, email, message, consent⟩

/-! ### Serialization of validated models back to documents
(pydantic `model_dump`, used when the handler hands the model to
`create_document`) -/

/-- Serialize an optional string (`None` becomes null). -/
def optVal : Option String → Value
  | none => Value.null
  | some s => Value.str s

/-- Spelling of a `Frequency` value. -/
def Frequency.toStr : Frequency → String
  | Frequency.one_time => "one_time"
  | Frequency.monthly => "monthly"

/-- Spelling of a `VolStatus` value. -/
def VolStatus.toStr : VolStatus → String
  | VolStatus.received => "received"
  | VolStatus.screening => "screening"
  | VolStatus.accepted => "accepted"
  | VolStatus.declined => "declined"

/-- Spelling of a `PartnerStatus` value. -/
def PartnerStatus.toStr : PartnerStatus → String
  | PartnerStatus.received => "received"
  | PartnerStatus.in_discussion => "in_discussion"
  | PartnerStatus.mou_draft => "mou_draft"
  | PartnerStatus.closed => "closed"

/-- Spelling of a `PubStatus` value. -/
def PubStatus.toStr : PubStatus → String
  | PubStatus.draft => "draft"
  | PubStatus.published => "published"

/-- `model_dump` of a `DonationIntent`. -/
def donationIntentToDoc (i : DonationIntent) : Doc :=
  [("amount", Value.num i.amount),
   ("currency", Value.str i.currency),
   ("frequency", Value.str i.frequency.toStr),
   ("fund", optVal i.fund),
   ("first_name", Value.str i.first_name),
   ("last_name", Value.str i.last_name),
   ("email", Value.str i.email),
   ("country", optVal i.country),
   ("message", optVal i.message),
   ("consent", Value.bool i.consent)]

/-- `model_dump` of a `VolunteerApplication`. -/
def volunteerApplicationToDoc (a : VolunteerApplication) : Doc :=
  [("name", Value.str a.name),
   ("email", Value.str a.email),
   ("phone", optVal a.phone),
   ("location", optVal a.location),
   ("role_interest", optVal a.role_interest),
   ("availability", optVal a.availability),
   ("experience", optVal a.experience),
   ("references", optVal a.references),
   ("consent", Value.bool a.consent),
   ("status", match a.status with
              | none => Value.null
              | some s => Value.str s.toStr)]

/-- `model_dump` of a `PartnerInquiry`. -/
def partnerInquiryToDoc (p : PartnerInquiry) : Doc :=
  [("organization", Value.str p.organization),
   ("partner_type", optVal p.partner_type),
   ("contact_name", Value.str p.contact_name),
   ("email", Value.str p.email),
   ("phone", optVal p.phone),
   ("country", optVal p.country),
   ("collaboration_areas", optVal p.collaboration_areas),
   ("message", optVal p.message),
   ("compliance_ack", Value.bool p.compliance_ack),
   ("status", match p.status with
              | none => Value.null
              | some s => Value.str s.toStr)]

/-- `model_dump` of a `ContactMessage`. -/
def contactMessageToDoc (m : ContactMessage) : Doc :=
  [("topic", optVal m.topic),
   ("name", Value.str m.name),
   ("email", Value.str m.email),
   ("message", Value.str m.message),
   ("consent", Value.bool m.consent)]

/-- `model_dump` of a `Program` (sent to the store by the out-of-scope
administrative process that creates content records). -/
def programToDoc (p : Program) : Doc :=
  [("title", Value.str p.title),
   ("summary", Value.str p.summary),
   ("problem_context", optVal p.problem_context),
   ("approach", optVal p.approach),
   ("activities", match p.activities with
                  | none => Value.null
                  | some l => Value.strList l),
   ("beneficiaries", match p.beneficiaries with
                     | none => Value.null
                     | some l => Value.strList l),
   ("expected_impact", optVal p.expected_impact),
   ("locations", match p.locations with
                 | none => Value.null
                 | some l => Value.strList l),
   ("tags", match p.tags with
            | none => Value.null
            | some l => Value.strList l),
   ("status", match p.status with
              | none => Value.null
              | some s => Value.str s.toStr)]

/-! ### Intake endpoints (`main.py`, `POST /api/...`) -/

/-- Outcome of one store insert attempt: the id the store assigns, or
the exception it raises. -/
inductive StoreOutcome where
  | ok (newId : String)
  | fail (msg : String)
deriving DecidableEq, Repr

/-- Result of one HTTP request to an intake endpoint:
a 200 `{id, message}` body, a 422 request-validation failure produced by
FastAPI before the handler runs, or the handler's
`HTTPException(status_code=500, detail=str(e))`. -/
inductive ApiResult where
  | created (id : String) (message : String)
  | validationError (detail : String)
  | serverError (detail : String)
deriving DecidableEq, Repr

/-- HTTP status code of an `ApiResult`. -/
def ApiResult.status : ApiResult → Nat
  | ApiResult.created _ _ => 200
  | ApiResult.validationError _ => 422
  | ApiResult.serverError _ => 500

/-- `POST /api/donations`: FastAPI validates the body against
`DonationIntent` (422 on failure, store untouched); the handler then
makes a single `create_document` attempt — `attempt 0`; only index 0 is
ever consulted, no retry — and maps a raised store error to a 500 whose
detail is `str(e)`. Returns the response and the resulting store. -/
def create_donation (raw : Doc) (store : List Doc)
    (attempt : Nat → StoreOutcome) : ApiResult × List Doc :=
  match parseDonationIntent raw with
  | Except.error e => (ApiResult.validationError e, store)
  | Except.ok intent =>
      match attempt 0 with
      | StoreOutcome.fail msg => (ApiResult.serverError msg, store)
      | StoreOutcome.ok newId =>
          let r := create_document store (donationIntentToDoc intent) newId
          (ApiResult.created r.1 "Donation intent recorded", r.2)

/-- `POST /api/volunteers`, same shape as `create_donation`. -/
def create_volunteer (raw : Doc) (store : List Doc)
    (attempt : Nat → StoreOutcome) : ApiResult × List Doc :=
  match parseVolunteerApplication raw with
  | Except.error e => (ApiResult.validationError e, store)
  | Except.ok apply =>
      match attempt 0 with
      | StoreOutcome.fail msg => (ApiResult.serverError msg, store)
      | StoreOutcome.ok newId =>
          let r := create_document store (volunteerApplicationToDoc apply) newId
          (ApiResult.created r.1 "Volunteer application received", r.2)

/-- `POST /api/partners`, same shape as `create_donation`. -/
def create_partner (raw : Doc) (store : List Doc)
    (attempt : Nat → StoreOutcome) : ApiResult × List Doc :=
  match parsePartnerInquiry raw with
  | Except.error e => (ApiResult.validationError e, store)
  | Except.ok inquiry =>
      match attempt 0 with
      | StoreOutcome.fail msg => (ApiResult.serverError msg, store)
      | StoreOutcome.ok newId =>
          let r := create_document store (partnerInquiryToDoc inquiry) newId
          (ApiResult.created r.1 "Partner inquiry submitted", r.2)

/-- `POST /api/contact`, same shape as `create_donation`. -/
def create_contact (raw : Doc) (store : List Doc)
    (attempt : Nat → StoreOutcome) : ApiResult × List Doc :=
  match parseContactMessage raw with
  | Except.error e => (ApiResult.validationError e, store)
  | Except.ok msg =>
      match attempt 0 with
      | StoreOutcome.fail m => (ApiResult.serverError m, store)
      | StoreOutcome.ok newId =>
          let r := create_document store (contactMessageToDoc msg) newId
          (ApiResult.created r.1 "Message received", r.2)

/-! ### Diagnostic endpoint (`GET /test`) -/

/-- Modelled from the spec: the process-wide `db` handle of the absent
`database.py` — when no connection string is configured the handle is
absent; otherwise it carries a name (when the driver exposes one) and a
`list_collection_names()` call that either returns the names or raises. -/
structure DbHandle where
  name : Option String
  listCollectionNames : Except String (List String)

/-- Environment seen by `/test`: the optional `db` handle and whether
the `DATABASE_URL` environment variable is set. -/
structure TestEnv where
  db : Option DbHandle
  databaseUrlSet : Bool

/-- The diagnostic response dictionary built by `test_database`. -/
structure TestResponse where
  backend : String
  database : String
  database_url : Option String
  database_name : Option String
  connection_status : String
  collections : List String
deriving DecidableEq, Repr

/-- `GET /test` (`main.py`): starts from a pessimistic response
dictionary and upgrades it step by step, catching the failure of
`list_collection_names` and reporting it (truncated to 80 characters)
inside the `database` field. Total: every failure is returned as data. -/
def test_database (env : TestEnv) : TestResponse :=
  let base : TestResponse :=
    { backend := "✅ Running"
      database := "❌ Not Available"
      database_url := none
      database_name := none
      connection_status := "Not Connected"
      collections := [] }
  match env.db with
  | none => { base with database := "⚠️ Available but not initialized" }
  | some d =>
      let r1 := { base with
        database := "✅ Available"
        database_url := some (if env.databaseUrlSet then "✅ Set" else "❌ Not Set")
        database_name := some (d.name.getD "✅ Connected")
        connection_status := "Connected" }
      match d.listCollectionNames with
      | Except.ok cols =>
          { r1 with collections := cols.take 20
                    database := "✅ Connected & Working" }
      | Except.error e =>
          { r1 with database := "⚠️ Connected but Error: " ++ (e.take 80) }

/-- The `/test` route as the framework sees it: a plain `return`
translates to HTTP 200 with the dictionary as body. -/
def test_endpoint (env : TestEnv) : Nat × TestResponse :=
  (200, test_database env)


/-! ### Helper lemmas -/

/-- Successful `Except` bind splits into two successful steps. -/
theorem exceptBind_ok {ε α β : Type} {x : Except ε α} {f : α → Except ε β}
    {b : β} (h : x >>= f = Except.ok b) :
    ∃ a, x = Except.ok a ∧ f a = Except.ok b := by
  cases x with
  | error e => simp [Bind.bind, Except.bind] at h
  | ok a => exact ⟨a, rfl, by simpa [Bind.bind, Except.bind] using h⟩

/-- A successful `reqPosNum` means the field is a strictly positive
number. -/
theorem reqPosNum_ok {raw : Doc} {k : String} {q : Rat}
    (h : reqPosNum raw k = Except.ok q) :
    getField raw k = some (Value.num q) ∧ 0 < q := by
  unfold reqPosNum at h
  rcases hg : getField raw k with _ | v <;> rw [hg] at h
  · simp at h
  · cases v <;> simp at h
    case num q0 =>
      split at h
      · cases h
        exact ⟨rfl, by assumption⟩
      · simp at h

/-- A successful `reqEmail` means the field is a string passing the
email check. -/
theorem reqEmail_ok {raw : Doc} {k : String} {s : String}
    (h : reqEmail raw k = Except.ok s) :
    getField raw k = some (Value.str s) ∧ isValidEmail s = true := by
  unfold reqEmail at h
  rcases hg : getField raw k with _ | v <;> rw [hg] at h
  · simp at h
  · cases v <;> simp at h
    case str s0 =>
      split at h
      · cases h
        exact ⟨rfl, by assumption⟩
      · simp at h

/-- A successful `reqBool` means the field is present and boolean. -/
theorem reqBool_ok {raw : Doc} {k : String} {b : Bool}
    (h : reqBool raw k = Except.ok b) :
    getField raw k = some (Value.bool b) := by
  unfold reqBool at h
  rcases hg : getField raw k with _ | v <;> rw [hg] at h
  · simp at h
  · cases v <;> simp at h
    case bool b0 =>
      cases h
      rfl

/-- A successful `freqOfValue` means the value is one of the two
permitted literals. -/
theorem freqOfValue_ok {v : Value} {f : Frequency}
    (h : freqOfValue v = Except.ok f) :
    v = Value.str "one_time" ∨ v = Value.str "monthly" := by
  unfold freqOfValue at h
  split at h
  · exact Or.inl (by assumption)
  · split at h
    · exact Or.inr (by assumption)
    · simp at h

/-- A successful `volStatusOfValue` means the value is null or one of
the four permitted literals. -/
theorem volStatusOfValue_ok {v : Value} {st : Option VolStatus}
    (h : volStatusOfValue v = Except.ok st) :
    v = Value.null ∨ v = Value.str "received" ∨ v = Value.str "screening" ∨
      v = Value.str "accepted" ∨ v = Value.str "declined" := by
  unfold volStatusOfValue at h
  split at h
  · exact Or.inl (by assumption)
  · split at h
    · exact Or.inr (Or.inl (by assumption))
    · split at h
      · exact Or.inr (Or.inr (Or.inl (by assumption)))
      · split at h
        · exact Or.inr (Or.inr (Or.inr (Or.inl (by assumption))))
        · split at h
          · exact Or.inr (Or.inr (Or.inr (Or.inr (by assumption))))
          · simp at h

/-- A successful `partnerStatusOfValue` means the value is null or one
of the four permitted literals. -/
theorem partnerStatusOfValue_ok {v : Value} {st : Option PartnerStatus}
    (h : partnerStatusOfValue v = Except.ok st) :
    v = Value.null ∨ v = Value.str "received" ∨
      v = Value.str "in_discussion" ∨ v = Value.str "mou_draft" ∨
      v = Value.str "closed" := by
  unfold partnerStatusOfValue at h
  split at h
  · exact Or.inl (by assumption)
  · split at h
    · exact Or.inr (Or.inl (by assumption))
    · split at h
      · exact Or.inr (Or.inr (Or.inl (by assumption)))
      · split at h
        · exact Or.inr (Or.inr (Or.inr (Or.inl (by assumption))))
        · split at h
          · exact Or.inr (Or.inr (Or.inr (Or.inr (by assumption))))
          · simp at h

/-- A request body accepted by the `DonationIntent` schema has a
strictly positive numeric `amount`, a `frequency` that is absent or a
permitted literal, a valid `email`, and a boolean `consent`. -/
theorem parseDonationIntent_ok {raw : Doc} {i : DonationIntent}
    (h : parseDonationIntent raw = Except.ok i) :
    (∃ q, getField raw "amount" = some (Value.num q) ∧ 0 < q) ∧
    (getField raw "frequency" = none ∨
      getField raw "frequency" = some (Value.str "one_time") ∨
      getField raw "frequency" = some (Value.str "monthly")) ∧
    (∃ s, getField raw "email" = some (Value.str s) ∧
      isValidEmail s = true) ∧
    (∃ b, getField raw "consent" = some (Value.bool b)) := by
  unfold parseDonationIntent at h
  obtain ⟨amount, hAmount, h⟩ := exceptBind_ok h
  obtain ⟨currency, hCurrency, h⟩ := exceptBind_ok h
  obtain ⟨frequency, hFrequency, h⟩ := exceptBind_ok h
  obtain ⟨fund, hFund, h⟩ := exceptBind_ok h
  obtain ⟨first_name, hFirst, h⟩ := exceptBind_ok h
  obtain ⟨last_name, hLast, h⟩ := exceptBind_ok h
  obtain ⟨email, hEmail, h⟩ := exceptBind_ok h
  obtain ⟨country, hCountry, h⟩ := exceptBind_ok h
  obtain ⟨message, hMessage, h⟩ := exceptBind_ok h
  obtain ⟨consent, hConsent, h⟩ := exceptBind_ok h
  refine ⟨⟨amount, reqPosNum_ok hAmount⟩, ?_,
    ⟨email, reqEmail_ok hEmail⟩, ⟨consent, reqBool_ok hConsent⟩⟩
  unfold parseFrequency at hFrequency
  rcases hg : getField raw "frequency" with _ | v
  · exact Or.inl rfl
  · rw [hg] at hFrequency
    rcases freqOfValue_ok hFrequency with hv | hv
    · exact Or.inr (Or.inl (by rw [hv]))
    · exact Or.inr (Or.inr (by rw [hv]))

/-- A request body accepted by the `VolunteerApplication` schema has a
boolean `consent` and a `status` that is absent, null, or a permitted
literal. -/
theorem parseVolunteerApplication_ok {raw : Doc} {a : VolunteerApplication}
    (h : parseVolunteerApplication raw = Except.ok a) :
    (∃ b, getField raw "consent" = some (Value.bool b)) ∧
    (getField raw "status" = none ∨
      getField raw "status" = some Value.null ∨
      getField raw "status" = some (Value.str "received") ∨
      getField raw "status" = some (Value.str "screening") ∨
      getField raw "status" = some (Value.str "accepted") ∨
      getField raw "status" = some (Value.str "declined")) := by
  unfold parseVolunteerApplication at h
  obtain ⟨name, hName, h⟩ := exceptBind_ok h
  obtain ⟨email, hEmail, h⟩ := exceptBind_ok h
  obtain ⟨phone, hPhone, h⟩ := exceptBind_ok h
  obtain ⟨location, hLocation, h⟩ := exceptBind_ok h
  obtain ⟨role_interest, hRole, h⟩ := exceptBind_ok h
  obtain ⟨availability, hAvail, h⟩ := exceptBind_ok h
  obtain ⟨experience, hExp, h⟩ := exceptBind_ok h
  obtain ⟨refs, hRefs, h⟩ := exceptBind_ok h
  obtain ⟨consent, hConsent, h⟩ := exceptBind_ok h
  obtain ⟨status, hStatus, h⟩ := exceptBind_ok h
  refine ⟨⟨consent, reqBool_ok hConsent⟩, ?_⟩
  unfold parseVolStatus at hStatus
  rcases hg : getField raw "status" with _ | v
  · exact Or.inl rfl
  · rw [hg] at hStatus
    rcases volStatusOfValue_ok hStatus with hv | hv | hv | hv | hv
    · exact Or.inr (Or.inl (by rw [hv]))
    · exact Or.inr (Or.inr (Or.inl (by rw [hv])))
    · exact Or.inr (Or.inr (Or.inr (Or.inl (by rw [hv]))))
    · exact Or.inr (Or.inr (Or.inr (Or.inr (Or.inl (by rw [hv])))))
    · exact Or.inr (Or.inr (Or.inr (Or.inr (Or.inr (by rw [hv])))))

/-- A request body accepted by the `PartnerInquiry` schema has a
boolean `compliance_ack` and a `status` that is absent, null, or a
permitted literal. -/
theorem parsePartnerInquiry_ok {raw : Doc} {p : PartnerInquiry}
    (h : parsePartnerInquiry raw = Except.ok p) :
    (∃ b, getField raw "compliance_ack" = some (Value.bool b)) ∧
    (getField raw "status" = none ∨
      getField raw "status" = some Value.null ∨
      getField raw "status" = some (Value.str "received") ∨
      getField raw "status" = some (Value.str "in_discussion") ∨
      getField raw "status" = some (Value.str "mou_draft") ∨
      getField raw "status" = some (Value.str "closed")) := by
  unfold parsePartnerInquiry at h
  obtain ⟨organization, hOrg, h⟩ := exceptBind_ok h
  obtain ⟨partner_type, hType, h⟩ := exceptBind_ok h
  obtain ⟨contact_name, hContact, h⟩ := exceptBind_ok h
  obtain ⟨email, hEmail, h⟩ := exceptBind_ok h
  obtain ⟨phone, hPhone, h⟩ := exceptBind_ok h
  obtain ⟨country, hCountry, h⟩ := exceptBind_ok h
  obtain ⟨areas, hAreas, h⟩ := exceptBind_ok h
  obtain ⟨message, hMessage, h⟩ := exceptBind_ok h
  obtain ⟨ack, hAck, h⟩ := exceptBind_ok h
  obtain ⟨status, hStatus, h⟩ := exceptBind_ok h
  refine ⟨⟨ack, reqBool_ok hAck⟩, ?_⟩
  unfold parsePartnerStatus at hStatus
  rcases hg : getField raw "status" with _ | v
  · exact Or.inl rfl
  · rw [hg] at hStatus
    rcases partnerStatusOfValue_ok hStatus with hv | hv | hv | hv | hv
    · exact Or.inr (Or.inl (by rw [hv]))
    · exact Or.inr (Or.inr (Or.inl (by rw [hv])))
    · exact Or.inr (Or.inr (Or.inr (Or.inl (by rw [hv]))))
    · exact Or.inr (Or.inr (Or.inr (Or.inr (Or.inl (by rw [hv])))))
    · exact Or.inr (Or.inr (Or.inr (Or.inr (Or.inr (by rw [hv])))))

/-- A request body accepted by the `ContactMessage` schema has a
boolean `consent`. -/
theorem parseContactMessage_ok {raw : Doc} {m : ContactMessage}
    (h : parseContactMessage raw = Except.ok m) :
    ∃ b, getField raw "consent" = some (Value.bool b) := by
  unfold parseContactMessage at h
  obtain ⟨topic, hTopic, h⟩ := exceptBind_ok h
  obtain ⟨name, hName, h⟩ := exceptBind_ok h
  obtain ⟨email, hEmail, h⟩ := exceptBind_ok h
  obtain ⟨message, hMessage, h⟩ := exceptBind_ok h
  obtain ⟨consent, hConsent, h⟩ := exceptBind_ok h
  exact ⟨consent, reqBool_ok hConsent⟩

/-- What each list endpoint computes under a published-only filter:
the published documents, truncated at the limit, with `_id` popped. -/
def pubList (store : List Doc) (lim : Nat) : List Doc :=
  ((store.filter isPublished).take lim).map removeId

theorem list_programs_pub (store : List Doc) (lim : Nat) :
    list_programs store (some lim) (some true) = pubList store lim := rfl

theorem list_stories_pub (store : List Doc) (lim : Nat) :
    list_stories store (some lim) (some true) = pubList store lim := rfl

theorem list_posts_pub (store : List Doc) (lim : Nat) :
    list_posts store (some lim) (some true) = pubList store lim := rfl

theorem list_stories_pub_default (store : List Doc) (lim : Nat) :
    list_stories store (some lim) none = pubList store lim := rfl

/-- Popping `_id` leaves every other field untouched. -/
theorem getField_removeId (d : Doc) (k : String) (hk : k ≠ "_id") :
    getField (removeId d) k = getField d k := by
  induction d with
  | nil => rfl
  | cons kv rest ih =>
      rw [removeId, List.filter_cons]
      by_cases hid : kv.1 = "_id"
      · have hpred : decide (kv.1 ≠ "_id") = false := by simp [hid]
        rw [hpred]
        have hkv : ¬ kv.1 = k := fun hc => hk (hc ▸ hid)
        simp only [Bool.false_eq_true, if_false]
        rw [show getField (kv :: rest) k = getField rest k by
          simp [getField, hkv]]
        exact ih
      · have hpred : decide (kv.1 ≠ "_id") = true := by simp [hid]
        rw [hpred, if_pos rfl]
        by_cases hkv : kv.1 = k
        · simp [getField, hkv]
        · simp only [getField, hkv, if_false]
          exact ih

/-- The popped document never has an `_id` field. -/
theorem getField_removeId_id (d : Doc) : getField (removeId d) "_id" = none := by
  induction d with
  | nil => rfl
  | cons kv rest ih =>
      by_cases hid : kv.1 = "_id"
      · simpa [removeId, List.filter, hid] using ih
      · simpa [removeId, List.filter, hid, getField] using ih

/-- A published document carries `status = "published"`. -/
theorem isPublished_getField {d : Doc} (h : isPublished d = true) :
    getField d "status" = some (Value.str "published") := by
  simpa [isPublished, matchesFilter, publishedFilter] using h

/-- Every record produced by `pubList` still carries the published
status (popping `_id` does not touch it). -/
theorem pubList_mem_status {store : List Doc} {lim : Nat} {d : Doc}
    (h : d ∈ pubList store lim) :
    getField d "status" = some (Value.str "published") := by
  obtain ⟨d0, hd0, rfl⟩ := List.mem_map.1 h
  have hfil : d0 ∈ store.filter isPublished := List.mem_of_mem_take hd0
  have hpub : isPublished d0 = true := (List.mem_filter.1 hfil).2
  rw [getField_removeId d0 "status" (by decide)]
  exact isPublished_getField hpub

/-- `pubList` never exceeds the limit. -/
theorem pubList_length_le (store : List Doc) (lim : Nat) :
    (pubList store lim).length ≤ lim := by
  simp only [pubList, List.length_map, List.length_take]
  exact min_le_left _ _

/-- When the published documents fit under the limit, each of them
appears (with `_id` popped) in the result. -/
theorem pubList_complete {store : List Doc} {lim : Nat}
    (hle : (store.filter isPublished).length ≤ lim) {d : Doc}
    (hd : d ∈ store) (hp : isPublished d = true) :
    removeId d ∈ pubList store lim := by
  unfold pubList
  rw [List.take_of_length_le hle]
  exact List.mem_map_of_mem removeId (List.mem_filter.2 ⟨hd, hp⟩)

/-- With every stored document published, the result length is the
limit capped by the store size. -/
theorem pubList_length_all {store : List Doc} {lim : Nat}
    (hall : ∀ d ∈ store, isPublished d = true) :
    (pubList store lim).length = min lim store.length := by
  unfold pubList
  rw [List.filter_eq_self.2 hall, List.length_map, List.length_take]

/-- Any document produced by mapping `removeId` has no `_id` field. -/
theorem mem_map_removeId {l : List Doc} {d : Doc}
    (h : d ∈ l.map removeId) : getField d "_id" = none := by
  obtain ⟨d0, _, rfl⟩ := List.mem_map.1 h
  exact getField_removeId_id d0

theorem list_programs_map (store : List Doc) (limit : Option Nat)
    (po : Option Bool) :
    list_programs store limit po =
      (get_documents store (if po.getD true then publishedFilter else [])
        (limit.getD 20)).map removeId := rfl

theorem list_stories_map (store : List Doc) (limit : Option Nat)
    (po : Option Bool) :
    list_stories store limit po =
      (get_documents store (if po.getD true then publishedFilter else [])
        (limit.getD 12)).map removeId := rfl

theorem list_posts_map (store : List Doc) (limit : Option Nat)
    (po : Option Bool) :
    list_posts store limit po =
      (get_documents store (if po.getD true then publishedFilter else [])
        (limit.getD 12)).map removeId := rfl

/-! ### Concrete sample data used by witnesses and counterexamples -/

/-- A published story document as stored. -/
def sampleStory : Doc :=
  [("title", Value.str "Field visit"), ("status", Value.str "published")]

/-- A store holding five published stories. -/
def fiveStories : List Doc := List.replicate 5 sampleStory

/-! ### Claims -/

/-- C1: for every store state and list request (programs, stories,
posts) with `published_only=true`, the returned sequence contains no
draft record, contains every published record (with the store id
popped) whenever the published records fit under the limit, and its
length never exceeds the limit; with 5 published stories present and
`limit=2` (and `published_only` left to its default),
`GET /api/stories?limit=2` returns exactly 2 records. -/
theorem C1_published_only_listing :
    (∀ store lim d, d ∈ list_programs store (some lim) (some true) →
        getField d "status" = some (Value.str "published") ∧
        getField d "status" ≠ some (Value.str "draft")) ∧
    (∀ store lim d, d ∈ list_stories store (some lim) (some true) →
        getField d "status" = some (Value.str "published") ∧
        getField d "status" ≠ some (Value.str "draft")) ∧
    (∀ store lim d, d ∈ list_posts store (some lim) (some true) →
        getField d "status" = some (Value.str "published") ∧
        getField d "status" ≠ some (Value.str "draft")) ∧
    (∀ store lim, (list_programs store (some lim) (some true)).length ≤ lim) ∧
    (∀ store lim, (list_stories store (some lim) (some true)).length ≤ lim) ∧
    (∀ store lim, (list_posts store (some lim) (some true)).length ≤ lim) ∧
    (∀ store lim, (store.filter isPublished).length ≤ lim →
        ∀ d ∈ store, isPublished d = true →
          removeId d ∈ list_programs store (some lim) (some true)) ∧
    (∀ store lim, (store.filter isPublished).length ≤ lim →
        ∀ d ∈ store, isPublished d = true →
          removeId d ∈ list_stories store (some lim) (some true)) ∧
    (∀ store lim, (store.filter isPublished).length ≤ lim →
        ∀ d ∈ store, isPublished d = true →
          removeId d ∈ list_posts store (some lim) (some true)) ∧
    (∀ store, store.length = 5 → (∀ d ∈ store, isPublished d = true) →
        (list_stories store (some 2) none).length = 2) := by
  have hstat : ∀ store lim (d : Doc), d ∈ pubList store lim →
      getField d "status" = some (Value.str "published") ∧
      getField d "status" ≠ some (Value.str "draft") := by
    intro store lim d hd
    have h := pubList_mem_status hd
    refine ⟨h, ?_⟩
    rw [h]
    decide
  refine ⟨?_, ?_, ?_, ?_, ?_, ?_, ?_, ?_, ?_, ?_⟩
  · intro store lim d hd
    exact hstat store lim d (list_programs_pub store lim ▸ hd)
  · intro store lim d hd
    exact hstat store lim d (list_stories_pub store lim ▸ hd)
  · intro store lim d hd
    exact hstat store lim d (list_posts_pub store lim ▸ hd)
  · intro store lim
    rw [list_programs_pub]
    exact pubList_length_le store lim
  · intro store lim
    rw [list_stories_pub]
    exact pubList_length_le store lim
  · intro store lim
    rw [list_posts_pub]
    exact pubList_length_le store lim
  · intro store lim hle d hd hp
    rw [list_programs_pub]
    exact pubList_complete hle hd hp
  · intro store lim hle d hd hp
    rw [list_stories_pub]
    exact pubList_complete hle hd hp
  · intro store lim hle d hd hp
    rw [list_posts_pub]
    exact pubList_complete hle hd hp
  · intro store h5 hall
    rw [list_stories_pub_default, pubList_length_all hall, h5]
    decide

/-- Witness for C1 at a concrete store of five published stories. -/
theorem C1_witness :
    (list_stories fiveStories (some 2) none).length = 2 ∧
    removeId sampleStory ∈ list_stories [sampleStory] (some 12) (some true) :=
  ⟨C1_published_only_listing.2.2.2.2.2.2.2.2.2 fiveStories rfl (by decide),
   C1_published_only_listing.2.2.2.2.2.2.2.1 [sampleStory] 12 (by decide)
     sampleStory (by decide) (by decide)⟩

/-- C9: with the query parameters omitted, `limit` defaults to 20 for
programs and 12 for stories and posts, and `published_only` defaults to
true. -/
theorem C9_query_defaults :
    ∀ store : List Doc,
      list_programs store none none = list_programs store (some 20) (some true) ∧
      list_stories store none none = list_stories store (some 12) (some true) ∧
      list_posts store none none = list_posts store (some 12) (some true) :=
  fun _ => ⟨rfl, rfl, rfl⟩

/-- C10: every record returned by any of the three list endpoints has
had the store-native `_id` key removed. -/
theorem C10_no_id_in_responses :
    (∀ store limit po d, d ∈ list_programs store limit po →
        getField d "_id" = none) ∧
    (∀ store limit po d, d ∈ list_stories store limit po →
        getField d "_id" = none) ∧
    (∀ store limit po d, d ∈ list_posts store limit po →
        getField d "_id" = none) := by
  refine ⟨?_, ?_, ?_⟩
  · intro store limit po d hd
    rw [list_programs_map] at hd
    exact mem_map_removeId hd
  · intro store limit po d hd
    rw [list_stories_map] at hd
    exact mem_map_removeId hd
  · intro store limit po d hd
    rw [list_posts_map] at hd
    exact mem_map_removeId hd

/-- A stored document still carrying its store id. -/
def storedStoryWithId : Doc :=
  [("title", Value.str "Field visit"), ("status", Value.str "published"),
   ("_id", Value.str "65123abc")]

/-- Witness for C10 at a concrete stored document with an `_id`. -/
theorem C10_witness :
    getField (removeId storedStoryWithId) "_id" = none :=
  C10_no_id_in_responses.2.1 [storedStoryWithId] (some 5) (some true)
    (removeId storedStoryWithId) (by decide)

/-- A concrete valid `Program`. -/
def samplePro : Program :=
  ⟨"Water Access", "Clean water for rural communities", none, none,
   some [], some [], none, some [], some [], some PubStatus.published⟩

/-- `removeId` distributes over append. -/
theorem removeId_append (xs ys : Doc) :
    removeId (xs ++ ys) = removeId xs ++ removeId ys :=
  List.filter_append _ _

/-- The dump of a `Program` carries no `_id` key, so popping leaves it
unchanged. -/
theorem removeId_programToDoc (p : Program) :
    removeId (programToDoc p) = programToDoc p := rfl

/-- The dump of a `Program` has no `_id` field. -/
theorem programToDoc_no_id (p : Program) :
    getField (programToDoc p) "_id" = none := rfl

/-- Appending the store-assigned id to an id-free record makes the id
retrievable. -/
theorem getField_append_of_none {xs : Doc} {k : String}
    (h : getField xs k = none) (v : Value) :
    getField (xs ++ [(k, v)]) k = some v := by
  induction xs with
  | nil => simp [getField]
  | cons kv rest ih =>
      by_cases hk : kv.1 = k
      · rw [getField, if_pos hk] at h
        cases h
      · rw [getField, if_neg hk] at h
        rw [List.cons_append, getField, if_neg hk]
        exact ih h

/-- An empty filter matches every document, so listing with
`published_only=false` returns the whole collection up to the limit,
each record with `_id` popped. -/
theorem list_programs_unfiltered (store : List Doc) (lim : Nat) :
    list_programs store (some lim) (some false) =
      (store.take lim).map removeId := by
  rw [list_programs_map]
  simp only [Option.getD_some, if_neg Bool.false_ne_true]
  rw [get_documents,
    show List.filter (matchesFilter []) store = store from
      List.filter_eq_self.2 (fun d _ => rfl)]

/-- C2 counterexample: inserting a concrete `Program` and listing with a
large limit and `published_only=false` yields exactly the submitted
fields; the returned record neither has an `_id` field nor holds the
store-assigned identifier "sid123" anywhere, refuting "additionally
carrying the store-assigned identifier". -/
theorem C2_counterexample :
    list_programs (create_document [] (programToDoc samplePro) "sid123").2
        (some 10) (some false) = [programToDoc samplePro] ∧
    getField (programToDoc samplePro) "_id" = none ∧
    ∀ kv ∈ programToDoc samplePro, kv.2 ≠ Value.str "sid123" := by
  refine ⟨by decide, by decide, by decide⟩

/-- C2 (amended): inserting a `Program` and then listing programs with
a sufficiently large limit and `published_only=false` yields a record
equal to the input on all submitted fields; the store-assigned
identifier is attached to the stored document but stripped from the
listed record. -/
theorem C2_roundtrip_id_stripped :
    ∀ (p : Program) (store : List Doc) (nid : String) (lim : Nat),
      store.length < lim →
      programToDoc p ∈
        list_programs (create_document store (programToDoc p) nid).2
          (some lim) (some false) ∧
      getField ((programToDoc p) ++ [("_id", Value.str nid)]) "_id" =
        some (Value.str nid) ∧
      (∀ d ∈ list_programs (create_document store (programToDoc p) nid).2
          (some lim) (some false), getField d "_id" = none) := by
  intro p store nid lim hlt
  have hstore :
      (create_document store (programToDoc p) nid).2 =
        store ++ [programToDoc p ++ [("_id", Value.str nid)]] := rfl
  refine ⟨?_, ?_, ?_⟩
  · rw [hstore, list_programs_unfiltered]
    have hlen : (store ++ [programToDoc p ++ [("_id", Value.str nid)]]).length ≤ lim := by
      simpa using hlt
    rw [List.take_of_length_le hlen]
    have hmem : programToDoc p ++ [("_id", Value.str nid)] ∈
        store ++ [programToDoc p ++ [("_id", Value.str nid)]] :=
      List.mem_append_right _ (List.mem_singleton.2 rfl)
    have := List.mem_map_of_mem removeId hmem
    rwa [removeId_append, removeId_programToDoc,
      show removeId [("_id", Value.str nid)] = [] from rfl,
      List.append_nil] at this
  · exact getField_append_of_none (programToDoc_no_id p) _
  · intro d hd
    rw [list_programs_map] at hd
    exact mem_map_removeId hd

/-- Witness for C2 (amended) at a concrete program and empty store. -/
theorem C2_witness :
    programToDoc samplePro ∈
      list_programs (create_document [] (programToDoc samplePro) "sid9").2
        (some 3) (some false) :=
  (C2_roundtrip_id_stripped samplePro [] "sid9" 3 (by decide)).1

/-- C3: a `DonationIntent` body whose `amount` is not strictly positive
fails validation before the handler runs, and the store is unchanged
(no document inserted). -/
theorem C3_nonpositive_amount_rejected :
    ∀ (raw : Doc) (store : List Doc) (att : Nat → StoreOutcome) (a : Rat),
      getField raw "amount" = some (Value.num a) → a ≤ 0 →
      ∃ e, create_donation raw store att =
        (ApiResult.validationError e, store) := by
  intro raw store att a hg hle
  rcases hp : parseDonationIntent raw with e | i
  · exact ⟨e, by simp [create_donation, hp]⟩
  · obtain ⟨⟨q, hq, hqpos⟩, _, _, _⟩ := parseDonationIntent_ok hp
    have : Value.num a = Value.num q := by
      have := hg.symm.trans hq
      simpa using this
    cases this
    exact absurd hqpos (not_lt.2 hle)

/-- Witness for C3 at a concrete body with a negative amount. -/
theorem C3_witness :
    ∃ e, create_donation [("amount", Value.num (-5))] []
        (fun _ => StoreOutcome.ok "id1") = (ApiResult.validationError e, []) :=
  C3_nonpositive_amount_rejected [("amount", Value.num (-5))] []
    (fun _ => StoreOutcome.ok "id1") (-5) (by decide) (by decide)

/-- C4: each intake form whose required consent or
compliance-acknowledgement boolean is absent fails validation (the
field has no default), and the store is unchanged. -/
theorem C4_consent_required :
    (∀ raw store att, getField raw "consent" = none →
        ∃ e, create_donation raw store att =
          (ApiResult.validationError e, store)) ∧
    (∀ raw store att, getField raw "consent" = none →
        ∃ e, create_volunteer raw store att =
          (ApiResult.validationError e, store)) ∧
    (∀ raw store att, getField raw "compliance_ack" = none →
        ∃ e, create_partner raw store att =
          (ApiResult.validationError e, store)) ∧
    (∀ raw store att, getField raw "consent" = none →
        ∃ e, create_contact raw store att =
          (ApiResult.validationError e, store)) := by
  refine ⟨?_, ?_, ?_, ?_⟩
  · intro raw store att hg
    rcases hp : parseDonationIntent raw with e | i
    · exact ⟨e, by simp [create_donation, hp]⟩
    · obtain ⟨_, _, _, b, hb⟩ := parseDonationIntent_ok hp
      rw [hg] at hb
      cases hb
  · intro raw store att hg
    rcases hp : parseVolunteerApplication raw with e | a
    · exact ⟨e, by simp [create_volunteer, hp]⟩
    · obtain ⟨⟨b, hb⟩, _⟩ := parseVolunteerApplication_ok hp
      rw [hg] at hb
      cases hb
  · intro raw store att hg
    rcases hp : parsePartnerInquiry raw with e | q
    · exact ⟨e, by simp [create_partner, hp]⟩
    · obtain ⟨⟨b, hb⟩, _⟩ := parsePartnerInquiry_ok hp
      rw [hg] at hb
      cases hb
  · intro raw store att hg
    rcases hp : parseContactMessage raw with e | m
    · exact ⟨e, by simp [create_contact, hp]⟩
    · obtain ⟨b, hb⟩ := parseContactMessage_ok hp
      rw [hg] at hb
      cases hb

/-- Witness for C4 at an empty request body. -/
theorem C4_witness :
    ∃ e, create_donation [] [] (fun _ => StoreOutcome.ok "id1") =
      (ApiResult.validationError e, []) :=
  C4_consent_required.1 [] [] (fun _ => StoreOutcome.ok "id1") rfl

/-- C7: a `DonationIntent` body whose `email` is not a syntactically
valid address fails with a 422 validation error — a client error, not a
server error — and the store is unchanged. -/
theorem C7_invalid_email_rejected :
    ∀ (raw : Doc) (store : List Doc) (att : Nat → StoreOutcome) (s : String),
      getField raw "email" = some (Value.str s) → isValidEmail s = false →
      ∃ e, create_donation raw store att =
          (ApiResult.validationError e, store) ∧
        (ApiResult.validationError e).status = 422 ∧
        (ApiResult.validationError e).status ≠ 500 := by
  intro raw store att s hg hbad
  rcases hp : parseDonationIntent raw with e | i
  · exact ⟨e, by simp [create_donation, hp], rfl, by
      show (422 : Nat) ≠ 500
      decide⟩
  · obtain ⟨_, _, ⟨s0, hs0, hvalid⟩, _⟩ := parseDonationIntent_ok hp
    have : Value.str s = Value.str s0 := by
      have := hg.symm.trans hs0
      simpa using this
    cases this
    rw [hvalid] at hbad
    cases hbad

/-- Witness for C7 at the concrete invalid address "not-an-email". -/
theorem C7_witness :
    ∃ e, create_donation [("email", Value.str "not-an-email")] []
        (fun _ => StoreOutcome.ok "id1") =
          (ApiResult.validationError e, []) ∧
      (ApiResult.validationError e).status = 422 ∧
      (ApiResult.validationError e).status ≠ 500 :=
  C7_invalid_email_rejected [("email", Value.str "not-an-email")] []
    (fun _ => StoreOutcome.ok "id1") "not-an-email" (by decide) (by decide)

/-- C8: a status or frequency value outside the entity's fixed literal
enumeration fails request validation with the store unchanged: a
`frequency` outside its two literals on donations, a volunteer `status`
outside its four literals, and a partner `status` outside its four
literals (null being permitted for the `Optional` status fields). -/
theorem C8_out_of_enum_rejected :
    (∀ raw store att v, getField raw "frequency" = some v →
        v ≠ Value.str "one_time" → v ≠ Value.str "monthly" →
        ∃ e, create_donation raw store att =
          (ApiResult.validationError e, store)) ∧
    (∀ raw store att v, getField raw "status" = some v →
        v ≠ Value.null → v ≠ Value.str "received" →
        v ≠ Value.str "screening" → v ≠ Value.str "accepted" →
        v ≠ Value.str "declined" →
        ∃ e, create_volunteer raw store att =
          (ApiResult.validationError e, store)) ∧
    (∀ raw store att v, getField raw "status" = some v →
        v ≠ Value.null → v ≠ Value.str "received" →
        v ≠ Value.str "in_discussion" → v ≠ Value.str "mou_draft" →
        v ≠ Value.str "closed" →
        ∃ e, create_partner raw store att =
          (ApiResult.validationError e, store)) := by
  refine ⟨?_, ?_, ?_⟩
  · intro raw store att v hg h1 h2
    rcases hp : parseDonationIntent raw with e | i
    · exact ⟨e, by simp [create_donation, hp]⟩
    · obtain ⟨_, hfreq, _, _⟩ := parseDonationIntent_ok hp
      rcases hfreq with hf | hf | hf
      · rw [hg] at hf
        cases hf
      · rw [hg] at hf
        exact absurd (by simpa using hf) h1
      · rw [hg] at hf
        exact absurd (by simpa using hf) h2
  · intro raw store att v hg h0 h1 h2 h3 h4
    rcases hp : parseVolunteerApplication raw with e | a
    · exact ⟨e, by simp [create_volunteer, hp]⟩
    · obtain ⟨_, hst⟩ := parseVolunteerApplication_ok hp
      rcases hst with hf | hf | hf | hf | hf | hf
      · rw [hg] at hf
        cases hf
      · rw [hg] at hf
        exact absurd (by simpa using hf) h0
      · rw [hg] at hf
        exact absurd (by simpa using hf) h1
      · rw [hg] at hf
        exact absurd (by simpa using hf) h2
      · rw [hg] at hf
        exact absurd (by simpa using hf) h3
      · rw [hg] at hf
        exact absurd (by simpa using hf) h4
  · intro raw store att v hg h0 h1 h2 h3 h4
    rcases hp : parsePartnerInquiry raw with e | q
    · exact ⟨e, by simp [create_partner, hp]⟩
    · obtain ⟨_, hst⟩ := parsePartnerInquiry_ok hp
      rcases hst with hf | hf | hf | hf | hf | hf
      · rw [hg] at hf
        cases hf
      · rw [hg] at hf
        exact absurd (by simpa using hf) h0
      · rw [hg] at hf
        exact absurd (by simpa using hf) h1
      · rw [hg] at hf
        exact absurd (by simpa using hf) h2
      · rw [hg] at hf
        exact absurd (by simpa using hf) h3
      · rw [hg] at hf
        exact absurd (by simpa using hf) h4

/-- Witness for C8 at the concrete out-of-enum values "weekly" for a
donation frequency and "pending" for a partner status. -/
theorem C8_witness :
    (∃ e, create_donation [("frequency", Value.str "weekly")] []
        (fun _ => StoreOutcome.ok "id1") =
          (ApiResult.validationError e, [])) ∧
    (∃ e, create_partner [("status", Value.str "pending")] []
        (fun _ => StoreOutcome.ok "id1") =
          (ApiResult.validationError e, [])) :=
  ⟨C8_out_of_enum_rejected.1 [("frequency", Value.str "weekly")] []
    (fun _ => StoreOutcome.ok "id1") (Value.str "weekly") (by decide)
    (by decide) (by decide),
   C8_out_of_enum_rejected.2.2 [("status", Value.str "pending")] []
    (fun _ => StoreOutcome.ok "id1") (Value.str "pending") (by decide)
    (by decide) (by decide) (by decide) (by decide) (by decide)⟩

/-- A concrete request body accepted by the `DonationIntent` schema. -/
def validDonation : Doc :=
  [("amount", Value.num 50), ("first_name", Value.str "Ada"),
   ("last_name", Value.str "Lovelace"),
   ("email", Value.str "ada@example.org"), ("consent", Value.bool true)]

/-- The validated model `validDonation` parses to. -/
def validDonationIntent : DonationIntent :=
  ⟨50, "USD", Frequency.one_time, none, "Ada", "Lovelace",
   "ada@example.org", none, none, true⟩

/-- A store error message of 200 characters, longer than every
truncation window used anywhere in the program (80 and 120). -/
def longError : String := String.mk (List.replicate 200 'x')

/-- C5 counterexample: when the store insert raises a 200-character
error, the handler's 500 response carries the error text whole —
`detail = str(e)` with nothing cut off — refuting "truncated". -/
theorem C5_counterexample :
    (create_donation validDonation []
        (fun _ => StoreOutcome.fail longError)).1 =
      ApiResult.serverError longError ∧
    longError.length = 200 := by
  constructor
  · rfl
  · rfl

/-- C5 (amended): if the store insert raises, each create endpoint
responds with an HTTP 500 whose detail is the underlying error text in
full (not truncated), the store is unchanged, and the insert is not
retried — the response depends only on the first insert attempt. -/
theorem C5_store_failure_full_detail :
    (∀ raw store att msg i, parseDonationIntent raw = Except.ok i →
        att 0 = StoreOutcome.fail msg →
        create_donation raw store att = (ApiResult.serverError msg, store) ∧
        (∀ att2 : Nat → StoreOutcome, att2 0 = att 0 →
          create_donation raw store att2 = create_donation raw store att)) ∧
    (∀ raw store att msg a, parseVolunteerApplication raw = Except.ok a →
        att 0 = StoreOutcome.fail msg →
        create_volunteer raw store att = (ApiResult.serverError msg, store) ∧
        (∀ att2 : Nat → StoreOutcome, att2 0 = att 0 →
          create_volunteer raw store att2 = create_volunteer raw store att)) ∧
    (∀ raw store att msg q, parsePartnerInquiry raw = Except.ok q →
        att 0 = StoreOutcome.fail msg →
        create_partner raw store att = (ApiResult.serverError msg, store) ∧
        (∀ att2 : Nat → StoreOutcome, att2 0 = att 0 →
          create_partner raw store att2 = create_partner raw store att)) ∧
    (∀ raw store att msg m, parseContactMessage raw = Except.ok m →
        att 0 = StoreOutcome.fail msg →
        create_contact raw store att = (ApiResult.serverError msg, store) ∧
        (∀ att2 : Nat → StoreOutcome, att2 0 = att 0 →
          create_contact raw store att2 = create_contact raw store att)) := by
  refine ⟨?_, ?_, ?_, ?_⟩ <;>
    (intro raw store att msg x hp hatt
     constructor
     · simp [create_donation, create_volunteer, create_partner,
         create_contact, hp, hatt]
     · intro att2 h2
       simp [create_donation, create_volunteer, create_partner,
         create_contact, hp, h2, hatt])

/-- Witness for C5 (amended) at a concrete valid body and failing
store. -/
theorem C5_witness :
    create_donation validDonation [] (fun _ => StoreOutcome.fail "boom") =
      (ApiResult.serverError "boom", []) :=
  (C5_store_failure_full_detail.1 validDonation []
    (fun _ => StoreOutcome.fail "boom") "boom" validDonationIntent
    rfl rfl).1

/-- C6: for every environment — including one with no database handle —
`GET /test` returns HTTP 200 with a best-effort diagnostic object; with
no handle the `database` field reports the degraded state and the
connection status stays "Not Connected"; a failing
`list_collection_names` is swallowed and reported (truncated to 80
characters) inside the `database` field; the endpoint is a total
function and never propagates a failure. -/
theorem C6_diagnostic_never_fails :
    ∀ env : TestEnv,
      (test_endpoint env).1 = 200 ∧
      (env.db = none →
        (test_endpoint env).2.database = "⚠️ Available but not initialized" ∧
        (test_endpoint env).2.connection_status = "Not Connected" ∧
        (test_endpoint env).2.database ≠ "✅ Connected & Working") ∧
      (∀ d e, env.db = some d → d.listCollectionNames = Except.error e →
        (test_endpoint env).2.database =
          "⚠️ Connected but Error: " ++ e.take 80) ∧
      (∀ d cols, env.db = some d → d.listCollectionNames = Except.ok cols →
        (test_endpoint env).2.database = "✅ Connected & Working" ∧
        (test_endpoint env).2.collections = cols.take 20) := by
  intro env
  refine ⟨rfl, ?_, ?_, ?_⟩
  · intro hdb
    refine ⟨?_, ?_, ?_⟩ <;> simp [test_endpoint, test_database, hdb]
  · intro d e hdb herr
    simp [test_endpoint, test_database, hdb, herr]
  · intro d cols hdb hok
    constructor <;> simp [test_endpoint, test_database, hdb, hok]

/-- Witness for C6 at the environment with no database configured. -/
theorem C6_witness :
    (test_endpoint ⟨none, false⟩).1 = 200 ∧
    (test_endpoint ⟨none, false⟩).2.database =
      "⚠️ Available but not initialized" :=
  ⟨(C6_diagnostic_never_fails ⟨none, false⟩).1,
   ((C6_diagnostic_never_fails ⟨none, false⟩).2.1 rfl).1⟩
